import Mathlib

/-!
Shallow embedding of `Auto_Deck_Generator.py` (Auto Slide Deck Generator).

The repository's core logic is modelled here as executable Lean functions:
JSON-like values carried between the LLM boundary and the renderer are an
inductive `Value`; fallible Python code returns `Except PyErr`; the ambient
randomness used for background colors is passed in explicitly as a function
`pick : Nat -> Fin 5` selecting an index into the fixed color palette.
-/

set_option maxRecDepth 10000

/-- Python exception values raised by the embedded code.  `retryError`
models `tenacity.RetryError`, which wraps the final attempt's exception
when the retry budget is exhausted. -/
inductive PyErr where
  | valueError (msg : String)
  | runtimeError (msg : String)
  | typeError (msg : String)
  | attributeError (msg : String)
  | retryError (cause : PyErr)
deriving DecidableEq

/-- JSON-like Python values as produced by `json.loads` and handed between
the pipeline stages (dict keys are strings, as in parsed JSON). -/
inductive Value where
  | vNone
  | vBool (b : Bool)
  | vInt (n : Int)
  | vStr (s : String)
  | vList (items : List Value)
  | vDict (entries : List (String × Value))

/-- A Python dict with string keys, in insertion order. -/
abbrev PyDict := List (String × Value)

/-- Python truthiness (`bool(v)`). -/
def pyTruthy : Value → Bool
  | .vNone => false
  | .vBool b => b
  | .vInt n => n != 0
  | .vStr s => !s.isEmpty
  | .vList l => !l.isEmpty
  | .vDict d => !d.isEmpty

/-- Python type name, as used in `AttributeError` messages. -/
def pyTypeName : Value → String
  | .vNone => "NoneType"
  | .vBool _ => "bool"
  | .vInt _ => "int"
  | .vStr _ => "str"
  | .vList _ => "list"
  | .vDict _ => "dict"

mutual
/-- CPython `repr` of a JSON-like value (string reprs are modelled without
escape sequences, which never arise in the inputs considered here). -/
def pyRepr : Value → String
  | .vNone => "None"
  | .vBool true => "True"
  | .vBool false => "False"
  | .vInt n => toString n
  | .vStr s => "\x27" ++ s ++ "\x27"
  | .vList l => "[" ++ pyReprList l ++ "]"
  | .vDict d => "\x7b" ++ pyReprDict d ++ "\x7d"

/-- Comma-separated reprs of list items. -/
def pyReprList : List Value → String
  | [] => ""
  | [v] => pyRepr v
  | v :: vs => pyRepr v ++ ", " ++ pyReprList vs

/-- Comma-separated `key: value` reprs of dict entries. -/
def pyReprDict : List (String × Value) → String
  | [] => ""
  | [(k, v)] => "\x27" ++ k ++ "\x27: " ++ pyRepr v
  | (k, v) :: kvs => "\x27" ++ k ++ "\x27: " ++ pyRepr v ++ ", " ++ pyReprDict kvs
end

/-- CPython `str()` of a JSON-like value. -/
def pyStr : Value → String
  | .vStr s => s
  | v => pyRepr v

/-- The whitespace characters removed by `str.strip()` (ASCII range). -/
def isPySpace (c : Char) : Bool :=
  c.toNat == 32 || c.toNat == 9 || c.toNat == 10 ||
  c.toNat == 13 || c.toNat == 11 || c.toNat == 12

/-- `str.strip()` on the underlying character list: drop leading and
trailing whitespace. -/
def pyStripL (l : List Char) : List Char :=
  ((l.dropWhile isPySpace).reverse.dropWhile isPySpace).reverse

/-- Python `str.strip()`. -/
def pyStrip (s : String) : String :=
  ⟨pyStripL s.data⟩

/-- The character class `[A-Za-z0-9_.-]` kept by `sanitize_filename`'s
regular-expression substitution. -/
def isFnameChar (c : Char) : Bool :=
  (65 ≤ c.toNat && c.toNat ≤ 90) || (97 ≤ c.toNat && c.toNat ≤ 122) ||
  (48 ≤ c.toNat && c.toNat ≤ 57) || c.toNat == 95 || c.toNat == 46 || c.toNat == 45

/-- `sanitize_filename`: strip, replace every space with an underscore
(single-character `str.replace`), then delete every character outside
`[A-Za-z0-9_.-]` (the `re.sub`). -/
def sanitize_filename (name : String) : String :=
  ⟨((pyStripL name.data).map (fun c => if c = ' ' then '_' else c)).filter isFnameChar⟩

/-- Python slice `l[:n]` for a possibly negative bound `n`. -/
def pySliceTo (l : List Char) (n : Int) : List Char :=
  if n < 0 then l.take (l.length - n.natAbs) else l.take n.toNat

/-- `clamp`: return `text` unchanged when it fits in `maxChars`, else the
prefix `text[: maxChars - 3]` with an ellipsis marker appended. -/
def clamp (text : String) (maxChars : Nat) : String :=
  if text.length ≤ maxChars then text
  else String.mk (pySliceTo text.data ((maxChars : Int) - 3)) ++ "..."

/-- A web search result as collected by `get_web_results`. -/
structure WebResult where
  title : String
  snippet : String
  url : String

/-- The numbered context block `get_web_results` builds for one result
(`i` is the 1-based position). -/
def resultChunk (i : Nat) (r : WebResult) : String :=
  "[" ++ toString i ++ "] " ++ r.title ++ "\nSummary: " ++ r.snippet ++
  "\nURL: " ++ r.url ++ "\n"

/-- The joined (pre-truncation) context text `"\n".join(chunks)`. -/
def joinedContext (results : List WebResult) : String :=
  String.intercalate "\n" (results.mapIdx (fun i r => resultChunk (i + 1) r))

/-- The capped web context returned by `get_web_results`
(`clamp(context, 6000)`); the network fetch itself is an external
collaborator, so the builder is modelled from the collected result list. -/
def web_context (results : List WebResult) : String :=
  clamp (joinedContext results) 6000

/-- The per-element normalization loop body of `validate_slide_json`:
coerce `title`/`notes` to stripped strings (missing keys default to `""`),
wrap a non-list `bullets` value as a singleton if truthy (else empty), then
strip each bullet and drop the ones that become empty. -/
def normSlide (sd : PyDict) : PyDict :=
  let title := pyStrip (pyStr ((sd.lookup "title").getD (.vStr "")))
  let bullets0 := (sd.lookup "bullets").getD (.vList [])
  let notes := pyStrip (pyStr ((sd.lookup "notes").getD (.vStr "")))
  let blist : List Value :=
    match bullets0 with
    | .vList l => l
    | v => if pyTruthy v then [.vStr (pyStr v)] else []
  let bullets := (blist.map (fun b => pyStrip (pyStr b))).filter (fun b => b ≠ "")
  [("title", .vStr title), ("bullets", .vList (bullets.map .vStr)),
   ("notes", .vStr notes)]

/-- The `for s in slides` loop of `validate_slide_json`: each element must
be a mapping (`s.get` on anything else raises `AttributeError`), and is
normalized by `normSlide`. -/
def validateSlides : List Value → Except PyErr (List PyDict)
  | [] => .ok []
  | s :: rest =>
    match s with
    | .vDict sd =>
      match validateSlides rest with
      | .error e => .error e
      | .ok tail => .ok (normSlide sd :: tail)
    | v => .error (.attributeError
        ("\x27" ++ pyTypeName v ++ "\x27 object has no attribute \x27get\x27"))

/-- `validate_slide_json`: reject a non-dict or a dict without `"slides"`,
reject a `"slides"` value that is not a non-empty list, then normalize each
element. -/
def validate_slide_json (data : Value) : Except PyErr (List PyDict) :=
  match data with
  | .vDict d =>
    match d.lookup "slides" with
    | none => .error (.valueError "LLM did not return a \x27slides\x27 list")
    | some slides =>
      match slides with
      | .vList l =>
        if l.isEmpty then .error (.valueError "\x27slides\x27 must be a non-empty list")
        else validateSlides l
      | _ => .error (.valueError "\x27slides\x27 must be a non-empty list")
  | _ => .error (.valueError "LLM did not return a \x27slides\x27 list")

/-- Whether a value is a Python list (`isinstance(bullets, list)`). -/
def isVList : Value → Bool
  | .vList _ => true
  | _ => false

/-- Whether a value is a Python dict (`isinstance(item, dict)`). -/
def isVDict : Value → Bool
  | .vDict _ => true
  | _ => false

/-- The normalize-with-repair step of `build_deck`: try
`validate_slide_json(raw)`; on failure, if `raw` is a list keep only its
dict items under a fresh `"slides"` key, else if `raw` is a dict containing
the exact key `"Slides"` move that value under `"slides"`; re-validate the
repaired candidate (its own failure propagates), and re-raise the original
error when neither repair shape applies. -/
def build_deck_slides (raw : Value) : Except PyErr (List PyDict) :=
  match validate_slide_json raw with
  | .ok s => .ok s
  | .error e =>
    match raw with
    | .vList items =>
      validate_slide_json (.vDict [("slides", .vList (items.filter isVDict))])
    | .vDict d =>
      if (d.lookup "Slides").isSome then
        validate_slide_json (.vDict [("slides", (d.lookup "Slides").getD (.vList []))])
      else .error e
    | _ => .error e

/-- An RGB color triple. -/
abbrev Rgb := Nat × Nat × Nat

/-- The fixed background palette `COLOR_PALETTE` for non-title slides. -/
def COLOR_PALETTE : List Rgb :=
  [(230, 240, 250), (245, 245, 245), (250, 240, 230), (240, 250, 240), (255, 255, 240)]

/-- The rotating bullet marker set `EMOJIS`. -/
def EMOJIS : List String := ["✅", "📈", "🔑", "📊", "💡"]

/-- The dark accent background `RGBColor(25, 50, 100)` the title-slide
branch applies first. -/
def titleSlideAccent : Rgb := (25, 50, 100)

/-- The purple accent-bar fill `RGBColor(138, 43, 226)`. -/
def accentLineColor : Rgb := (138, 43, 226)

/-- `set_slide_background(slide)` with no explicit color: fill with
`random.choice(COLOR_PALETTE)`; the ambient randomness is passed in as
`pick`, giving the palette index chosen while rendering slide `idx`. -/
def set_slide_background (pick : Nat → Fin 5) (idx : Nat) : Rgb :=
  COLOR_PALETTE.get ⟨(pick idx).val, (pick idx).isLt⟩

/-- The marker `EMOJIS[slide_index % len(EMOJIS)]` used by `_add_bullets`. -/
def bulletEmoji (idx : Nat) : String :=
  EMOJIS.get ⟨idx % EMOJIS.length, Nat.mod_lt _ (by decide)⟩

/-- Python `bullets == []`: true exactly for the empty list value. -/
def isEmptyListV : Value → Bool
  | .vList [] => true
  | _ => false

/-- Assigning a value to a python-pptx text attribute requires a string;
anything else raises `TypeError`. -/
def expectStr : Value → Except PyErr String
  | .vStr s => .ok s
  | v => .error (.typeError ("assigned text must be a string, got " ++ pyTypeName v))

/-- The speaker-notes step: `if notes:` skips falsy values, a truthy
string is attached, any other truthy value fails the text assignment. -/
def notesOpt (v : Value) : Except PyErr (Option String) :=
  if pyTruthy v then
    match v with
    | .vStr s => .ok (some s)
    | w => .error (.typeError ("assigned text must be a string, got " ++ pyTypeName w))
  else .ok none

/-- The body of a content slide: `_add_bullets` decorates each bullet with
the slide's marker when `bullets` is truthy, else the body text is set to
the empty string. -/
def renderBody (idx : Nat) (bullets : Value) : Except PyErr (List String) :=
  if pyTruthy bullets then
    match bullets with
    | .vList items => .ok (items.map (fun b => bulletEmoji idx ++ " " ++ pyStr b))
    | .vStr s => .ok (s.data.map (fun c => bulletEmoji idx ++ " " ++ String.mk [c]))
    | .vDict d => .ok (d.map (fun kv => bulletEmoji idx ++ " " ++ kv.1))
    | v => .error (.typeError ("\x27" ++ pyTypeName v ++ "\x27 object is not iterable"))
  else .ok [""]

/-- One rendered slide: the layout index picked from the template, the
title text, the background fills applied to the slide in order (the last
one is what the saved document shows), the decorated body lines (content
slides only), the fixed subtitle caption and accent bar (title slide
only), and the attached speaker notes. -/
structure RenderedSlide where
  layout : Nat
  title : String
  bgFills : List Rgb
  body : Option (List String)
  subtitle : Option String
  accentLine : Option Rgb
  notes : Option String

/-- One iteration of the `for idx, s in enumerate(slides)` loop of
`create_pptx`.  The first slide with `bullets == []` takes the title-slide
branch: accent background, subtitle caption, accent bar — and then, like
every slide, the unconditional `set_slide_background(slide)` at the end of
the loop body adds a random palette fill on top.  Every other slide takes
the content branch. -/
def renderSlide (pick : Nat → Fin 5) (idx : Nat) (s : PyDict) :
    Except PyErr RenderedSlide :=
  let titleRaw := (s.lookup "title").getD .vNone
  let titleV := if pyTruthy titleRaw then titleRaw
                else .vStr ("Slide " ++ toString (idx + 1))
  let bullets := (s.lookup "bullets").getD (.vList [])
  let notes := (s.lookup "notes").getD (.vStr "")
  if idx == 0 && isEmptyListV bullets then
    match expectStr titleV with
    | .error e => .error e
    | .ok title =>
      match notesOpt notes with
      | .error e => .error e
      | .ok n =>
        .ok { layout := 0, title := title,
              bgFills := [titleSlideAccent, set_slide_background pick idx],
              body := none,
              subtitle := some "Auto-Generated Deck • Powered by AI",
              accentLine := some accentLineColor,
              notes := n }
  else
    match expectStr titleV with
    | .error e => .error e
    | .ok title =>
      match renderBody idx bullets with
      | .error e => .error e
      | .ok body =>
        match notesOpt notes with
        | .error e => .error e
        | .ok n =>
          .ok { layout := 1, title := title,
                bgFills := [set_slide_background pick idx],
                body := some body,
                subtitle := none,
                accentLine := none,
                notes := n }

/-- The whole slide loop of `create_pptx`: render the records in order,
appending one slide per record; the first exception aborts the run. -/
def renderAll (pick : Nat → Fin 5) : Nat → List PyDict →
    Except PyErr (List RenderedSlide)
  | _, [] => .ok []
  | idx, s :: rest =>
    match renderSlide pick idx s with
    | .error e => .error e
    | .ok r =>
      match renderAll pick (idx + 1) rest with
      | .error e => .error e
      | .ok rs => .ok (r :: rs)

/-- ASCII `str.lower()` (the sanitized name this is applied to contains
only ASCII characters). -/
def pyLower (s : String) : String :=
  ⟨s.data.map (fun c => if 65 ≤ c.toNat && c.toNat ≤ 90 then Char.ofNat (c.toNat + 32) else c)⟩

/-- Python `str.endswith`. -/
def endswith (s suffix : String) : Bool :=
  suffix.data.isSuffixOf s.data

/-- The output-path computation at the end of `create_pptx`:
`sanitize_filename(outfile or "deck.pptx")`, then force a `.pptx`
extension unless the lowered name already ends with it. -/
def finalOutfile (outfile : String) : String :=
  let safe := sanitize_filename (if outfile.isEmpty then "deck.pptx" else outfile)
  if endswith (pyLower safe) ".pptx" then safe else safe ++ ".pptx"

/-- `create_pptx`: render every slide record in input order, then save the
document under the sanitized output path.  The result is the list of
rendered slides (the document's contents) and the path written. -/
def create_pptx (slides : List PyDict) (pick : Nat → Fin 5) (outfile : String) :
    Except PyErr (List RenderedSlide × String) :=
  match renderAll pick 0 slides with
  | .error e => .error e
  | .ok rs => .ok (rs, finalOutfile outfile)

/-- The shape of every record `validate_slide_json` produces: string
title, list bullets, string notes.  The renderer succeeds on any such
record. -/
def WellFormedSlide (s : PyDict) : Prop :=
  (∃ t, s.lookup "title" = some (.vStr t)) ∧
  (∃ bs, s.lookup "bullets" = some (.vList bs)) ∧
  (∃ n, s.lookup "notes" = some (.vStr n))

lemma pyStripL_eq_rdropWhile (l : List Char) :
    pyStripL l = (l.dropWhile isPySpace).rdropWhile isPySpace := by
  simp [pyStripL, List.rdropWhile]

lemma dropWhile_eq_self_of_head (p : Char → Bool) (l : List Char)
    (h : ∀ a, l.head? = some a → p a = false) : l.dropWhile p = l := by
  cases l with
  | nil => rfl
  | cons a t => simp [List.dropWhile_cons, h a rfl]

lemma head_dropWhile_false (p : Char → Bool) (l : List Char) :
    ∀ a, (l.dropWhile p).head? = some a → p a = false := by
  induction l with
  | nil => simp
  | cons b t ih =>
    intro a ha
    by_cases hb : p b
    · rw [List.dropWhile_cons, if_pos hb] at ha
      exact ih a ha
    · rw [List.dropWhile_cons, if_neg hb] at ha
      simp only [List.head?_cons, Option.some.injEq] at ha
      subst ha
      simpa using hb

lemma dropWhile_rdropWhile_fix (p : Char → Bool) (l : List Char) :
    ((l.dropWhile p).rdropWhile p).dropWhile p = (l.dropWhile p).rdropWhile p := by
  apply dropWhile_eq_self_of_head
  intro a ha
  obtain ⟨t, ht⟩ := List.rdropWhile_prefix p (l.dropWhile p)
  have hh : (l.dropWhile p).head? = some a := by
    rw [← ht]
    cases hr : (l.dropWhile p).rdropWhile p with
    | nil => rw [hr] at ha; simp at ha
    | cons b r' =>
      rw [hr] at ha
      simpa using ha
  exact head_dropWhile_false p l a hh

lemma pyStripL_idem (l : List Char) : pyStripL (pyStripL l) = pyStripL l := by
  rw [pyStripL_eq_rdropWhile, pyStripL_eq_rdropWhile,
      dropWhile_rdropWhile_fix, List.rdropWhile_eq_self_iff]
  intro hl
  exact List.rdropWhile_last_not _ _ hl

lemma pyStrip_idem (s : String) : pyStrip (pyStrip s) = pyStrip s := by
  simp [pyStrip, pyStripL_idem]

lemma pyStripL_eq_self_of_no_space {l : List Char}
    (h : ∀ c ∈ l, isPySpace c = false) : pyStripL l = l := by
  rw [pyStripL_eq_rdropWhile]
  have h2 : l.dropWhile isPySpace = l := by
    rw [List.dropWhile_eq_self_iff]
    intro hl
    simp only [List.get_eq_getElem]
    simp [h _ (List.getElem_mem hl)]
  rw [h2, List.rdropWhile_eq_self_iff]
  intro hl
  simp [h _ (List.getLast_mem hl)]

lemma fname_char_facts {c : Char} (h : isFnameChar c = true) :
    isPySpace c = false ∧ c ≠ ' ' := by
  refine ⟨?_, ?_⟩
  · simp only [isFnameChar, Bool.or_eq_true, Bool.and_eq_true, decide_eq_true_eq,
      beq_iff_eq] at h
    simp only [isPySpace, Bool.or_eq_false_iff, beq_eq_false_iff_ne]
    omega
  · intro hc
    subst hc
    exact absurd h (by decide)

lemma sanitize_mem_fname {s : String} {c : Char}
    (hc : c ∈ (sanitize_filename s).data) : isFnameChar c = true := by
  simp only [sanitize_filename] at hc
  exact (List.mem_filter.mp hc).2

lemma sanitize_eq_self {s : String} (h : ∀ c ∈ s.data, isFnameChar c = true) :
    sanitize_filename s = s := by
  unfold sanitize_filename
  rw [pyStripL_eq_self_of_no_space (fun c hc => (fname_char_facts (h c hc)).1)]
  have h2 : s.data.map (fun c => if c = ' ' then '_' else c) = s.data := by
    have hcg := List.map_congr_left (l := s.data)
      (f := fun c => if c = ' ' then '_' else c) (g := id)
      (fun a ha => if_neg (fname_char_facts (h a ha)).2)
    rw [hcg, List.map_id]
  rw [h2, List.filter_eq_self.mpr (fun a ha => h a ha)]

lemma normSlide_wf (sd : PyDict) : WellFormedSlide (normSlide sd) :=
  ⟨⟨_, rfl⟩, ⟨_, rfl⟩, ⟨_, rfl⟩⟩

lemma validateSlides_wf : ∀ {l : List Value} {res : List PyDict},
    validateSlides l = .ok res → ∀ s ∈ res, WellFormedSlide s := by
  intro l
  induction l with
  | nil =>
    intro res h s hs
    simp only [validateSlides, Except.ok.injEq] at h
    subst h
    simp at hs
  | cons v rest ih =>
    intro res h s hs
    cases v with
    | vDict sd =>
      simp only [validateSlides] at h
      cases hrest : validateSlides rest with
      | error e => rw [hrest] at h; simp at h
      | ok tail =>
        rw [hrest] at h
        simp only [Except.ok.injEq] at h
        subst h
        rcases List.mem_cons.mp hs with heq | htail
        · exact heq ▸ normSlide_wf sd
        · exact ih hrest s htail
    | vNone => simp [validateSlides] at h
    | vBool b => simp [validateSlides] at h
    | vInt n => simp [validateSlides] at h
    | vStr t => simp [validateSlides] at h
    | vList l2 => simp [validateSlides] at h

lemma validate_slide_json_wf {data : Value} {res : List PyDict}
    (h : validate_slide_json data = .ok res) : ∀ s ∈ res, WellFormedSlide s := by
  unfold validate_slide_json at h
  split at h
  · split at h
    · simp at h
    · split at h
      · split at h
        · simp at h
        · exact validateSlides_wf h
      · simp at h
  · simp at h

lemma renderSlide_ok {s : PyDict} (pick : Nat → Fin 5) (idx : Nat)
    (h : WellFormedSlide s) : ∃ r, renderSlide pick idx s = .ok r := by
  obtain ⟨⟨t, ht⟩, ⟨bs, hb⟩, ⟨n, hn⟩⟩ := h
  obtain ⟨m, hm⟩ : ∃ m, notesOpt (.vStr n) = .ok m := by
    unfold notesOpt
    split
    · exact ⟨some n, rfl⟩
    · exact ⟨none, rfl⟩
  obtain ⟨b, hbod⟩ : ∃ b, renderBody idx (.vList bs) = .ok b := by
    unfold renderBody
    split
    · exact ⟨_, rfl⟩
    · exact ⟨[""], rfl⟩
  obtain ⟨u, hu⟩ : ∃ u, (if pyTruthy (Value.vStr t) then Value.vStr t
      else Value.vStr ("Slide " ++ toString (idx + 1))) = Value.vStr u := by
    split
    · exact ⟨t, rfl⟩
    · exact ⟨_, rfl⟩
  simp only [renderSlide, ht, hb, hn, Option.getD_some, hu]
  split
  · simp only [expectStr, hm]
    exact ⟨_, rfl⟩
  · simp only [expectStr, hbod, hm]
    exact ⟨_, rfl⟩

lemma renderAll_ok {l : List PyDict} (pick : Nat → Fin 5)
    (hwf : ∀ s ∈ l, WellFormedSlide s) :
    ∀ idx, ∃ rs, renderAll pick idx l = .ok rs ∧ rs.length = l.length ∧
      ∀ i (h1 : i < l.length) (h2 : i < rs.length),
        renderSlide pick (idx + i) (l.get ⟨i, h1⟩) = .ok (rs.get ⟨i, h2⟩) := by
  induction l with
  | nil =>
    intro idx
    exact ⟨[], rfl, rfl, fun i h1 => absurd h1 (by simp)⟩
  | cons s rest ih =>
    intro idx
    obtain ⟨r, hr⟩ := renderSlide_ok pick idx (hwf s (by simp))
    obtain ⟨rs, hrs, hlen, hpt⟩ := ih (fun x hx => hwf x (by simp [hx])) (idx + 1)
    refine ⟨r :: rs, ?_, by simp [hlen], ?_⟩
    · show renderAll pick idx (s :: rest) = .ok (r :: rs)
      unfold renderAll
      rw [hr, hrs]
    · intro i h1 h2
      cases i with
      | zero => simpa using hr
      | succ j =>
        have harith : idx + (j + 1) = idx + 1 + j := by omega
        rw [harith]
        exact hpt j (by simpa using h1) (by simpa using h2)

lemma str_length_append (a b : String) : (a ++ b).length = a.length + b.length := by
  cases a with | mk la => cases b with | mk lb => exact List.length_append la lb

/-- Claim C9: `sanitize_filename` is idempotent — its output has no
spaces, no surrounding whitespace, and only characters in `[A-Za-z0-9_.-]`,
so sanitizing it again changes nothing. -/
theorem C9_sanitize_filename_idempotent (s : String) :
    sanitize_filename (sanitize_filename s) = sanitize_filename s :=
  sanitize_eq_self (fun _ hc => sanitize_mem_fname hc)

/-- Claim C8: sanitizing `"My Topic!! 2024.pptx"` yields
`"My_Topic_2024.pptx"`, and `create_pptx` appends `".pptx"` to the
sanitized output name exactly when it does not already end
(case-insensitively) with that extension. -/
theorem C8_sanitize_and_forced_extension :
    sanitize_filename "My Topic!! 2024.pptx" = "My_Topic_2024.pptx" ∧
    ∀ out : String,
      (endswith (pyLower (sanitize_filename (if out.isEmpty then "deck.pptx" else out)))
          ".pptx" = false →
        finalOutfile out =
          sanitize_filename (if out.isEmpty then "deck.pptx" else out) ++ ".pptx") ∧
      (endswith (pyLower (sanitize_filename (if out.isEmpty then "deck.pptx" else out)))
          ".pptx" = true →
        finalOutfile out =
          sanitize_filename (if out.isEmpty then "deck.pptx" else out)) := by
  refine ⟨by decide, fun out => ⟨fun h => ?_, fun h => ?_⟩⟩
  · simp [finalOutfile, h]
  · simp [finalOutfile, h]

/-- Witness for C8: `"report"` gets the extension appended, while
`"Deck.PPTX"` already ends with it case-insensitively and is unchanged. -/
theorem C8_sanitize_and_forced_extension_witness :
    (endswith (pyLower (sanitize_filename
        (if ("report" : String).isEmpty then "deck.pptx" else "report"))) ".pptx" = false
      ∧ finalOutfile "report" =
          sanitize_filename (if ("report" : String).isEmpty then "deck.pptx" else "report")
            ++ ".pptx")
    ∧ (endswith (pyLower (sanitize_filename
        (if ("Deck.PPTX" : String).isEmpty then "deck.pptx" else "Deck.PPTX"))) ".pptx" = true
      ∧ finalOutfile "Deck.PPTX" =
          sanitize_filename
            (if ("Deck.PPTX" : String).isEmpty then "deck.pptx" else "Deck.PPTX")) :=
  ⟨⟨by decide, (C8_sanitize_and_forced_extension.2 "report").1 (by decide)⟩,
   ⟨by decide, (C8_sanitize_and_forced_extension.2 "Deck.PPTX").2 (by decide)⟩⟩

/-- Claim C7: when the joined web-context text exceeds 6000 characters the
Search Context Builder returns a string of length at most 6000 ending in
the ellipsis marker; otherwise it returns the joined text unchanged. -/
theorem C7_web_context_cap (results : List WebResult) :
    ((joinedContext results).length > 6000 →
      (web_context results).length ≤ 6000 ∧
      ∃ front, web_context results = front ++ "...") ∧
    ((joinedContext results).length ≤ 6000 →
      web_context results = joinedContext results) := by
  constructor
  · intro h
    have hneg : ¬ (joinedContext results).length ≤ 6000 := by omega
    constructor
    · unfold web_context clamp
      rw [if_neg hneg, str_length_append]
      have h3 : ((6000 : Nat) : Int) - 3 = (5997 : Int) := by norm_num
      have hsl : pySliceTo (joinedContext results).data ((6000 : Nat) - 3 : Int)
          = (joinedContext results).data.take 5997 := by
        rw [h3]
        unfold pySliceTo
        rw [if_neg (by norm_num)]
        have h4 : (5997 : Int).toNat = 5997 := rfl
        rw [h4]
      rw [hsl]
      rw [String.length_eq_list_length, List.length_take]
      have hd : (joinedContext results).data.length = (joinedContext results).length := rfl
      have hel : ("..." : String).length = 3 := by decide
      rw [hel]
      omega
    · unfold web_context clamp
      rw [if_neg hneg]
      exact ⟨_, rfl⟩
  · intro h
    unfold web_context clamp
    rw [if_pos h]

/-- Witness for C7: a single result whose title alone is 6000 characters
makes the joined context 6021 characters long, so it is truncated to at
most 6000 characters and ends with the ellipsis. -/
theorem C7_web_context_cap_witness :
    (joinedContext [⟨String.replicate 6000 'a', "", ""⟩]).length > 6000 ∧
    ((web_context [⟨String.replicate 6000 'a', "", ""⟩]).length ≤ 6000 ∧
      ∃ front, web_context [⟨String.replicate 6000 'a', "", ""⟩] = front ++ "...") := by
  have h : (joinedContext [⟨String.replicate 6000 'a', "", ""⟩]).length > 6000 := by
    have he : joinedContext [⟨String.replicate 6000 'a', "", ""⟩]
        = resultChunk 1 ⟨String.replicate 6000 'a', "", ""⟩ := rfl
    rw [he]
    unfold resultChunk
    simp only [str_length_append, String.length_replicate]
    decide
  exact ⟨h, (C7_web_context_cap [⟨String.replicate 6000 'a', "", ""⟩]).1 h⟩

/-- Counterexample to C4: a raw mapping whose slides live under the key
`"SLIDES"` fails normalization, and the repair does NOT relocate it (only
the exact casing `"Slides"` is checked): the original error is re-raised,
although relocating the value would have produced a valid deck. -/
theorem C4_counterexample :
    build_deck_slides (.vDict [("SLIDES", .vList [.vDict [("title", .vStr "T"),
        ("bullets", .vList [.vStr "a"])]])])
      = .error (.valueError "LLM did not return a \x27slides\x27 list") ∧
    validate_slide_json (.vDict [("slides", .vList [.vDict [("title", .vStr "T"),
        ("bullets", .vList [.vStr "a"])]])])
      = .ok [[("title", .vStr "T"), ("bullets", .vList [.vStr "a"]),
              ("notes", .vStr "")]] :=
  ⟨rfl, rfl⟩

/-- Claim C4 (amended): when the raw mapping fails normalization, only a
key spelled exactly `"Slides"` is relocated to `"slides"` and the
Normalizer re-invoked on the repaired mapping exactly once; with no such
key (any other casing included) the original error propagates. -/
theorem C4_amended_repair_exact_Slides (d : PyDict) (e : PyErr)
    (h : validate_slide_json (.vDict d) = .error e) :
    ((d.lookup "Slides").isSome = true →
      build_deck_slides (.vDict d) =
        validate_slide_json (.vDict [("slides", (d.lookup "Slides").getD (.vList []))])) ∧
    (d.lookup "Slides" = none →
      build_deck_slides (.vDict d) = .error e) := by
  constructor
  · intro hs
    simp [build_deck_slides, h, hs]
  · intro hs
    simp [build_deck_slides, h, hs]

/-- Witness for C4 (amended): a dict under the exact key `"Slides"` is
relocated and re-validated; a dict with no slides-like key re-raises the
original error. -/
theorem C4_amended_repair_exact_Slides_witness :
    build_deck_slides (.vDict [("Slides", .vList [.vDict [("title", .vStr "T")]])])
      = validate_slide_json (.vDict [("slides",
          ((([("Slides", Value.vList [.vDict [("title", Value.vStr "T")]])] : PyDict).lookup
            "Slides").getD (.vList [])))]) ∧
    build_deck_slides (.vDict [("foo", .vStr "x")])
      = .error (.valueError "LLM did not return a \x27slides\x27 list") := by
  constructor
  · exact (C4_amended_repair_exact_Slides
      [("Slides", .vList [.vDict [("title", .vStr "T")]])] _ rfl).1 rfl
  · exact (C4_amended_repair_exact_Slides [("foo", .vStr "x")] _ rfl).2 rfl

/-- Counterexample to C5: on `{"Slides": "x"}` the repair applies (the
value is relocated), re-normalization still fails, and the propagated
error is the one raised by the second normalization, not the original
SchemaError from the first. -/
theorem C5_counterexample :
    validate_slide_json (.vDict [("Slides", .vStr "x")])
      = .error (.valueError "LLM did not return a \x27slides\x27 list") ∧
    build_deck_slides (.vDict [("Slides", .vStr "x")])
      = .error (.valueError "\x27slides\x27 must be a non-empty list") ∧
    PyErr.valueError "\x27slides\x27 must be a non-empty list"
      ≠ PyErr.valueError "LLM did not return a \x27slides\x27 list" :=
  ⟨rfl, rfl, by decide⟩

/-- Claim C5 (amended): when a repair shape applies but the reshaped
candidate still fails normalization, the error of the second normalization
(of the repaired candidate) propagates; repair only reshapes structure —
the sequence branch keeps exactly the mapping elements, in order and
unaltered (non-mapping elements are dropped), and the `"Slides"` branch
moves the value unaltered. -/
theorem C5_amended_second_error_propagates (raw : Value) (e : PyErr)
    (h : validate_slide_json raw = .error e) :
    (∀ items, raw = .vList items →
      build_deck_slides raw =
        validate_slide_json (.vDict [("slides", .vList (items.filter isVDict))]) ∧
      (items.filter isVDict).Sublist items) ∧
    (∀ d, raw = .vDict d → (d.lookup "Slides").isSome = true →
      build_deck_slides raw =
        validate_slide_json (.vDict [("slides", (d.lookup "Slides").getD (.vList []))])) := by
  constructor
  · intro items hr
    subst hr
    exact ⟨by simp [build_deck_slides, h], List.filter_sublist _⟩
  · intro d hr hs
    subst hr
    simp [build_deck_slides, h, hs]

/-- Witness for C5 (amended): a bare sequence with a non-mapping element
is repaired to its mapping elements only, and a still-failing `"Slides"`
dict propagates the second normalization's result. -/
theorem C5_amended_second_error_propagates_witness :
    (build_deck_slides (.vList [.vInt 1, .vDict [("title", .vStr "T")]])
        = validate_slide_json (.vDict [("slides",
            .vList ([Value.vInt 1, Value.vDict [("title", Value.vStr "T")]].filter isVDict))])
      ∧ ([Value.vInt 1, Value.vDict [("title", Value.vStr "T")]].filter isVDict).Sublist
          [Value.vInt 1, Value.vDict [("title", Value.vStr "T")]])
    ∧ build_deck_slides (.vDict [("Slides", .vStr "y")])
        = validate_slide_json (.vDict [("slides",
            ((([("Slides", Value.vStr "y")] : PyDict).lookup "Slides").getD (.vList [])))]) := by
  constructor
  · exact (C5_amended_second_error_propagates
      (.vList [.vInt 1, .vDict [("title", .vStr "T")]]) _ rfl).1 _ rfl
  · exact (C5_amended_second_error_propagates
      (.vDict [("Slides", .vStr "y")]) _ rfl).2 _ rfl rfl

/-- Claim C6: the Normalizer coerces `title` and `notes` to trimmed
strings (missing keys become the empty string), coerces `bullets` to a
sequence of trimmed non-empty strings (a non-sequence value is wrapped as
a singleton if truthy, else becomes empty), and on the concrete input
`{"slides": [{"title": "T", "bullets": ["a", " b "], "notes": ""}]}` it
yields exactly one record with bullets `["a", "b"]`. -/
theorem C6_normalizer_coercion :
    validate_slide_json (.vDict [("slides", .vList [.vDict
        [("title", .vStr "T"), ("bullets", .vList [.vStr "a", .vStr " b "]),
         ("notes", .vStr "")]])])
      = .ok [[("title", .vStr "T"), ("bullets", .vList [.vStr "a", .vStr "b"]),
              ("notes", .vStr "")]] ∧
    (∀ sd : PyDict, sd.lookup "title" = none →
      (normSlide sd).lookup "title" = some (.vStr "")) ∧
    (∀ sd : PyDict, sd.lookup "notes" = none →
      (normSlide sd).lookup "notes" = some (.vStr "")) ∧
    (∀ (sd : PyDict) (t : String),
      (normSlide sd).lookup "title" = some (.vStr t) → pyStrip t = t) ∧
    (∀ (sd : PyDict) (n : String),
      (normSlide sd).lookup "notes" = some (.vStr n) → pyStrip n = n) ∧
    (∀ (sd : PyDict) (bs : List Value),
      (normSlide sd).lookup "bullets" = some (.vList bs) →
      ∀ b ∈ bs, ∃ u, b = .vStr u ∧ u ≠ "" ∧ pyStrip u = u) ∧
    (∀ (sd : PyDict) (v : Value), sd.lookup "bullets" = some v →
      isVList v = false → pyTruthy v = false →
      (normSlide sd).lookup "bullets" = some (.vList [])) ∧
    (∀ (sd : PyDict) (v : Value), sd.lookup "bullets" = some v →
      isVList v = false → pyTruthy v = true →
      (normSlide sd).lookup "bullets" =
        some (.vList (([pyStrip (pyStr v)].filter (fun b => b ≠ "")).map .vStr))) := by
  refine ⟨rfl, ?_, ?_, ?_, ?_, ?_, ?_, ?_⟩
  · intro sd h
    simp [normSlide, h, List.lookup]
    rfl
  · intro sd h
    simp [normSlide, h, List.lookup]
    rfl
  · intro sd t h
    have he : (normSlide sd).lookup "title"
        = some (.vStr (pyStrip (pyStr ((sd.lookup "title").getD (.vStr ""))))) := rfl
    rw [he] at h
    simp only [Option.some.injEq, Value.vStr.injEq] at h
    subst h
    exact pyStrip_idem _
  · intro sd n h
    have he : (normSlide sd).lookup "notes"
        = some (.vStr (pyStrip (pyStr ((sd.lookup "notes").getD (.vStr ""))))) := rfl
    rw [he] at h
    simp only [Option.some.injEq, Value.vStr.injEq] at h
    subst h
    exact pyStrip_idem _
  · intro sd bs h b hb
    have he : (normSlide sd).lookup "bullets"
        = some (.vList ((((match (sd.lookup "bullets").getD (.vList []) with
            | .vList l => l
            | v => if pyTruthy v then [.vStr (pyStr v)] else []).map
              (fun b => pyStrip (pyStr b))).filter (fun b => b ≠ "")).map .vStr)) := rfl
    rw [he] at h
    simp only [Option.some.injEq, Value.vList.injEq] at h
    subst h
    obtain ⟨u, hu, rfl⟩ := List.mem_map.mp hb
    obtain ⟨hum, hune⟩ := List.mem_filter.mp hu
    obtain ⟨x, _, rfl⟩ := List.mem_map.mp hum
    refine ⟨_, rfl, by simpa using hune, pyStrip_idem _⟩
  · intro sd v h hnl htr
    cases v with
    | vList l => simp [isVList] at hnl
    | vNone =>
      simp [normSlide, h, List.lookup]
      intro hc
      exact absurd hc (by decide)
    | vBool b => simp [normSlide, h, List.lookup, htr]
    | vInt n => simp [normSlide, h, List.lookup, htr]
    | vStr t => simp [normSlide, h, List.lookup, htr]
    | vDict d => simp [normSlide, h, List.lookup, htr]
  · intro sd v h hnl htr
    cases v with
    | vList l => simp [isVList] at hnl
    | vNone => simp [pyTruthy] at htr
    | vBool b => simp [normSlide, h, List.lookup, htr, pyStr]
    | vInt n => simp [normSlide, h, List.lookup, htr, pyStr]
    | vStr t => simp [normSlide, h, List.lookup, htr, pyStr]
    | vDict d => simp [normSlide, h, List.lookup, htr, pyStr]

/-- Witness for C6: a record with no title, no notes and a truthy
non-list `bullets` value gets empty title/notes, a wrapped stripped
bullet; a record with notes `" n "` gets strip-fixed notes `"n"`; a falsy
non-list `bullets` value becomes the empty sequence. -/
theorem C6_normalizer_coercion_witness :
    (normSlide [("bullets", Value.vStr " x ")]).lookup "title" = some (.vStr "") ∧
    (normSlide [("bullets", Value.vStr " x ")]).lookup "notes" = some (.vStr "") ∧
    pyStrip "" = "" ∧
    ((normSlide [("notes", Value.vStr " n ")]).lookup "notes" = some (.vStr "n") ∧
      pyStrip "n" = "n") ∧
    (∃ u, Value.vStr "x" = .vStr u ∧ u ≠ "" ∧ pyStrip u = u) ∧
    (normSlide [("bullets", Value.vStr " x ")]).lookup "bullets"
      = some (.vList (([pyStrip (pyStr (Value.vStr " x "))].filter
          (fun b => b ≠ "")).map .vStr)) ∧
    (normSlide [("bullets", Value.vInt 0)]).lookup "bullets" = some (.vList []) := by
  refine ⟨?_, ?_, ?_, ⟨rfl, ?_⟩, ?_, ?_, ?_⟩
  · exact C6_normalizer_coercion.2.1 [("bullets", Value.vStr " x ")] rfl
  · exact C6_normalizer_coercion.2.2.1 [("bullets", Value.vStr " x ")] rfl
  · exact C6_normalizer_coercion.2.2.2.1 [("bullets", Value.vStr " x ")] "" rfl
  · exact C6_normalizer_coercion.2.2.2.2.1 [("notes", Value.vStr " n ")] "n" rfl
  · exact C6_normalizer_coercion.2.2.2.2.2.1 [("bullets", Value.vStr " x ")]
      [Value.vStr "x"] rfl (Value.vStr "x") (by simp)
  · exact C6_normalizer_coercion.2.2.2.2.2.2.2 [("bullets", Value.vStr " x ")]
      (Value.vStr " x ") rfl rfl rfl
  · exact C6_normalizer_coercion.2.2.2.2.2.2.1 [("bullets", Value.vInt 0)]
      (Value.vInt 0) rfl rfl rfl

/-- Claim C1: for every normalized slide sequence, `create_pptx` succeeds
and adds exactly one slide per record, in input order: the output has the
same length and its `i`-th slide is the rendering of the `i`-th record. -/
theorem C1_one_slide_per_record_in_order (data : Value) (res : List PyDict)
    (pick : Nat → Fin 5) (outfile : String)
    (h : validate_slide_json data = .ok res) :
    ∃ out, create_pptx res pick outfile = .ok out ∧
      out.1.length = res.length ∧
      ∀ (i : Nat) (h1 : i < res.length) (h2 : i < out.1.length),
        renderSlide pick i (res.get ⟨i, h1⟩) = .ok (out.1.get ⟨i, h2⟩) := by
  obtain ⟨rs, hrs, hlen, hpt⟩ := renderAll_ok pick (validate_slide_json_wf h) 0
  refine ⟨(rs, finalOutfile outfile), ?_, hlen, ?_⟩
  · unfold create_pptx
    rw [hrs]
  · intro i h1 h2
    simpa using hpt i h1 h2

/-- Witness for C1: a two-record normalized deck renders to exactly two
slides in order. -/
theorem C1_one_slide_per_record_in_order_witness :
    validate_slide_json (.vDict [("slides", .vList
      [.vDict [("title", .vStr "Intro"), ("bullets", .vList []), ("notes", .vStr "")],
       .vDict [("title", .vStr "Pt"), ("bullets", .vList [.vStr "a"]),
               ("notes", .vStr "n")]])])
      = .ok [[("title", Value.vStr "Intro"), ("bullets", Value.vList []),
              ("notes", Value.vStr "")],
             [("title", Value.vStr "Pt"), ("bullets", Value.vList [Value.vStr "a"]),
              ("notes", Value.vStr "n")]] ∧
    ∃ out, create_pptx
        [[("title", Value.vStr "Intro"), ("bullets", Value.vList []),
          ("notes", Value.vStr "")],
         [("title", Value.vStr "Pt"), ("bullets", Value.vList [Value.vStr "a"]),
          ("notes", Value.vStr "n")]] (fun _ => (0 : Fin 5)) "deck" = .ok out ∧
      out.1.length = ([[("title", Value.vStr "Intro"), ("bullets", Value.vList []),
          ("notes", Value.vStr "")],
         [("title", Value.vStr "Pt"), ("bullets", Value.vList [Value.vStr "a"]),
          ("notes", Value.vStr "n")]] : List PyDict).length ∧
      ∀ (i : Nat) (h1 : i < ([[("title", Value.vStr "Intro"), ("bullets", Value.vList []),
          ("notes", Value.vStr "")],
         [("title", Value.vStr "Pt"), ("bullets", Value.vList [Value.vStr "a"]),
          ("notes", Value.vStr "n")]] : List PyDict).length) (h2 : i < out.1.length),
        renderSlide (fun _ => (0 : Fin 5)) i
          (([[("title", Value.vStr "Intro"), ("bullets", Value.vList []),
              ("notes", Value.vStr "")],
             [("title", Value.vStr "Pt"), ("bullets", Value.vList [Value.vStr "a"]),
              ("notes", Value.vStr "n")]] : List PyDict).get ⟨i, h1⟩)
          = .ok (out.1.get ⟨i, h2⟩) :=
  ⟨rfl, C1_one_slide_per_record_in_order
    (.vDict [("slides", .vList
      [.vDict [("title", .vStr "Intro"), ("bullets", .vList []), ("notes", .vStr "")],
       .vDict [("title", .vStr "Pt"), ("bullets", .vList [.vStr "a"]),
               ("notes", .vStr "n")]])])
    _ (fun _ => (0 : Fin 5)) "deck" rfl⟩

/-- C2 divergence: the title slide's accent fill is applied first, but the
unconditional `set_slide_background(slide)` at the end of the loop body
paints a random palette color over it, so the title slide's final
background is a palette color and never the fixed accent. -/
theorem C2_title_slide_background_overwritten (pick : Nat → Fin 5) (s : PyDict)
    (r : RenderedSlide)
    (hb : (s.lookup "bullets").getD (.vList []) = .vList [])
    (h : renderSlide pick 0 s = .ok r) :
    r.bgFills = [titleSlideAccent, set_slide_background pick 0] ∧
    r.bgFills.getLast? = some (set_slide_background pick 0) ∧
    set_slide_background pick 0 ∈ COLOR_PALETTE ∧
    set_slide_background pick 0 ≠ titleSlideAccent := by
  have hne : ∀ j : Fin 5, COLOR_PALETTE.get ⟨j.val, j.isLt⟩ ≠ titleSlideAccent := by
    decide
  simp only [renderSlide, hb] at h
  rw [if_pos (by decide)] at h
  split at h
  · simp at h
  · split at h
    · simp at h
    · simp only [Except.ok.injEq] at h
      subst h
      exact ⟨rfl, rfl, List.get_mem _ _ _, hne (pick 0)⟩

/-- Witness for C2: a concrete one-record title slide, rendered with the
palette index fixed to 0, ends with palette color (230, 240, 250) on top
of the accent fill. -/
theorem C2_title_slide_background_overwritten_witness :
    renderSlide (fun _ => (0 : Fin 5)) 0
        [("title", Value.vStr "Intro"), ("bullets", Value.vList []),
         ("notes", Value.vStr "")]
      = .ok { layout := 0, title := "Intro",
              bgFills := [titleSlideAccent,
                set_slide_background (fun _ => (0 : Fin 5)) 0],
              body := none,
              subtitle := some "Auto-Generated Deck • Powered by AI",
              accentLine := some accentLineColor, notes := none } ∧
    (set_slide_background (fun _ => (0 : Fin 5)) 0 ∈ COLOR_PALETTE ∧
      set_slide_background (fun _ => (0 : Fin 5)) 0 ≠ titleSlideAccent) := by
  refine ⟨rfl, ?_⟩
  have := C2_title_slide_background_overwritten (fun _ => (0 : Fin 5))
    [("title", Value.vStr "Intro"), ("bullets", Value.vList []),
     ("notes", Value.vStr "")] _ rfl rfl
  exact ⟨this.2.2.1, this.2.2.2⟩

/-- Claim C10: a record whose title is missing or the empty string is
rendered with the placeholder title `"Slide N"`, `N` the 1-based slide
position. -/
theorem C10_placeholder_title (pick : Nat → Fin 5) (idx : Nat) (s : PyDict)
    (r : RenderedSlide)
    (h0 : s.lookup "title" = none ∨ s.lookup "title" = some (.vStr ""))
    (h : renderSlide pick idx s = .ok r) :
    r.title = "Slide " ++ toString (idx + 1) := by
  have htv : (if pyTruthy ((s.lookup "title").getD .vNone)
      then (s.lookup "title").getD .vNone
      else Value.vStr ("Slide " ++ toString (idx + 1)))
      = Value.vStr ("Slide " ++ toString (idx + 1)) := by
    rcases h0 with h0 | h0 <;> rw [h0] <;> rfl
  simp only [renderSlide, htv, expectStr] at h
  split at h
  · split at h
    · simp at h
    · simp only [Except.ok.injEq] at h
      subst h
      rfl
  · split at h
    · simp at h
    · split at h
      · simp at h
      · simp only [Except.ok.injEq] at h
        subst h
        rfl

/-- Witness for C10: a record with no title key at position 2 (0-based)
gets the placeholder title `"Slide 3"`. -/
theorem C10_placeholder_title_witness :
    (([("bullets", Value.vList [Value.vStr "x"])] : PyDict).lookup "title" = none ∨
      ([("bullets", Value.vList [Value.vStr "x"])] : PyDict).lookup "title"
        = some (.vStr "")) ∧
    ∃ r, renderSlide (fun _ => (0 : Fin 5)) 2 [("bullets", Value.vList [Value.vStr "x"])]
        = .ok r ∧ r.title = "Slide " ++ toString (2 + 1) := by
  refine ⟨Or.inl rfl, ?_⟩
  refine ⟨{ layout := 1, title := "Slide 3",
            bgFills := [set_slide_background (fun _ => (0 : Fin 5)) 2],
            body := some ["🔑 x"], subtitle := none, accentLine := none,
            notes := none }, rfl, ?_⟩
  exact C10_placeholder_title (fun _ => (0 : Fin 5)) 2
    [("bullets", Value.vList [Value.vStr "x"])] _ (Or.inl rfl) rfl

